import Mathlib

/-!
Shallow embedding of the Modular-Rag-Template repository (Python sources under
`src/`), covering the parts of the code the verified claims are about:

* `src/models/enums/ResponseEnums.py` — the `ResponseStatus` enum;
* `src/controllers/DataController.py` — `validate_file`;
* `src/stores/llm/providers/GEMINIProvider.py` — `rerank`;
* `src/stores/vectordb/providers/PGVectorProvider.py` — `insert_many`,
  `create_all_indexes` and the hybrid `search_by_vector` SQL query;
* `src/routes/nlp.py` — the push loop of `index_project`;
* `src/routes/data.py` — `process_endpoint`.

Python exceptions are modelled with `Except PyError`; external collaborators
(the database client, the pgvector `<=>` distance operator, the `tsvector`
match and `ts_rank_cd` functions, the embedding client, the LLM) are
parameters of the embedded functions, exactly at the call boundaries where
the source code hands control to them.
-/

/-- Python runtime errors that the embedded code can raise. -/
inductive PyError where
  /-- Python `AttributeError`, carrying the missing attribute name. -/
  | attributeError (attr : String)
  /-- Python `TypeError` (e.g. calling a method with too many positional arguments). -/
  | typeError
  /-- Python `ValueError` (e.g. `range(0, n, 0)`). -/
  | valueError
deriving DecidableEq, Repr

/-! ### `ResponseStatus` (src/models/enums/ResponseEnums.py)

The enum's members, as `(member name, value)` pairs, copied from the source
file.  Python attribute access `ResponseStatus.<NAME>.value` succeeds exactly
when `<NAME>` is a member and yields its value; on a missing member it raises
`AttributeError`. -/

def responseStatusMembers : List (String × String) := [
  ("FILE_VALIDATED_SUCCESS", "file_validate_successfully"),
  ("FILE_TYPE_NOT_SUPPORTED", "file_type_not_supported"),
  ("FILE_SIZE_EXCEEDED", "file_size_exceeded"),
  ("FILE_UPLOAD_SUCCESS", "file_upload_success"),
  ("FILE_UPLOAD_FAILED", "file_upload_failed"),
  ("FILE_PROCESSING_STARTED", "file_processing_started"),
  ("FILE_PROCESSING_COMPLETED", "file_processing_completed"),
  ("PROJECT_NOT_FOUND", "project_not_found"),
  ("INDEXING_FAILED", "indexing_failed"),
  ("INDEXING_COMPLETED", "indexing_completed"),
  ("FETCHING_COLLECTION_INFO_FAILED", "fetching_collection_info_failed"),
  ("FETCHING_COLLECTION_INFO_COMPLETED", "fetching_collection_info_completed"),
  ("SEARCH_FAILED", "search_failed"),
  ("SEARCH_COMPLETED", "search_completed"),
  ("ANSWER_GENERATION_FAILED", "answer_generation_failed"),
  ("ANSWER_GENERATION_COMPLETED", "answer_generation_completed")]

/-- Attribute access `ResponseStatus.<name>.value` as Python evaluates it: the member's value,
or an `AttributeError` when the enum has no such member. -/
def responseStatusValue (name : String) : Except PyError String :=
  match responseStatusMembers.lookup name with
  | some v => .ok v
  | none => .error (.attributeError name)

/-! ### `DataController.validate_file` (src/controllers/DataController.py)

```python
def validate_file(self, file: UploadFile) -> bool:
    if file.content_type not in self.app_settings.FILE_ALLOWED_TYPES:
        return False, ResponseStatus.FILE_TYPE_NOT_SUPPORTED.value
    if file.size > self.app_settings.FILE_MAX_SIZE * self.scale_mb:
        return False, ResponseStatus.FILE_SIZE_EXCEEDED.value
    return True, ResponseStatus.FILE_VALIDATED_SUCCESS.value
```
with `self.scale_mb = 1024*1024`.  The settings (`FILE_ALLOWED_TYPES`,
`FILE_MAX_SIZE`) and the file's `content_type` and `size` are taken as
arguments. -/

def scale_mb : Nat := 1024 * 1024

def validate_file (file_allowed_types : List String) (file_max_size : Nat)
    (content_type : String) (size : Nat) : Bool × String :=
  if content_type ∉ file_allowed_types then
    (false, (responseStatusValue "FILE_TYPE_NOT_SUPPORTED").toOption.getD "")
  else if file_max_size * scale_mb < size then
    (false, (responseStatusValue "FILE_SIZE_EXCEEDED").toOption.getD "")
  else
    (true, (responseStatusValue "FILE_VALIDATED_SUCCESS").toOption.getD "")

/-! ### `GEMINIProvider.rerank` (src/stores/llm/providers/GEMINIProvider.py)

```python
async def rerank(self, query, documents, top_n=10):
    if not documents:
        return []
    ...
    try:
        response = await self.gen_model.generate_content_async(prompt)
        cleaned_response = response.text.strip().replace("```json", "").replace("```", "")
        relevant_indices = json.loads(cleaned_response)
        return [documents[i] for i in relevant_indices if i < len(documents)]
    except Exception as e:
        return documents[:top_n]  # Fallback to original order
```

The round trip through the LLM plus `json.loads` is external: it is modelled
as an argument `llmIndices : Except Unit (List Int)`, where `.error ()`
stands for any exception raised before the list comprehension (a provider
error, or `json.loads` failing on a non-JSON response) and `.ok idxs` for a
successfully parsed JSON array of integers.  The list comprehension itself
(including Python's negative indexing and the `IndexError` it can raise,
which the `except` clause also catches) is modelled faithfully. -/

structure RDoc where
  text : String
deriving DecidableEq, Repr

/-- Python list indexing `documents[i]`: non-negative indices from the front,
negative indices from the back, `none` when the access raises `IndexError`. -/
def pyGetIdx (xs : List RDoc) (i : Int) : Option RDoc :=
  if 0 ≤ i then xs.get? i.toNat
  else if (-i).toNat ≤ xs.length then xs.get? (xs.length - (-i).toNat)
  else none

/-- The comprehension `[documents[i] for i in idxs if i < len(documents)]`,
evaluated left to right; `none` when some kept index raises `IndexError`. -/
def selectDocs (docs : List RDoc) : List Int → Option (List RDoc)
  | [] => some []
  | i :: rest =>
    if i < (docs.length : Int) then
      match pyGetIdx docs i with
      | none => none
      | some d => (selectDocs docs rest).map (fun ds => d :: ds)
    else selectDocs docs rest

def rerank (documents : List RDoc) (top_n : Nat)
    (llmIndices : Except Unit (List Int)) : List RDoc :=
  if documents.isEmpty then []
  else
    match llmIndices with
    | .error _ => documents.take top_n
    | .ok idxs =>
      match selectDocs documents idxs with
      | none => documents.take top_n
      | some ds => ds

/-! ### `PGVectorProvider.search_by_vector` (src/stores/vectordb/providers/PGVectorProvider.py)

The hybrid-search SQL (one CTE per modality, then Reciprocal-Rank Fusion):

```sql
WITH vector_results AS (
    SELECT id, ROW_NUMBER() OVER (ORDER BY vector <=> :vector) as rank
    FROM {collection} LIMIT :top_k),
keyword_results AS (
    SELECT id, ROW_NUMBER() OVER (ORDER BY ts_rank_cd(fts_tokens, plainto_tsquery(:query)) DESC) as rank
    FROM {collection} WHERE fts_tokens @@ plainto_tsquery(:query) LIMIT :top_k)
SELECT t.text as text,
       (COALESCE(1.0 / (:rrf_k + v.rank), 0.0) + COALESCE(1.0 / (:rrf_k + k.rank), 0.0)) as score
FROM vector_results v
FULL OUTER JOIN keyword_results k ON v.id = k.id
JOIN {collection} t ON t.id = COALESCE(v.id, k.id)
ORDER BY score DESC LIMIT :top_k
```

A collection row carries the columns the query touches.  The three SQL
operators evaluated by PostgreSQL on column values are parameters:
`dist` for `vector <=> :vector` (distance of a stored vector to the query
vector), `kwMatch` for `fts_tokens @@ plainto_tsquery(:query)` and
`kwRank` for `ts_rank_cd(fts_tokens, plainto_tsquery(:query))`.
`ROW_NUMBER() OVER (ORDER BY e)` is modelled by sorting the rows by `e`
(each CTE's `LIMIT` then keeps the first `top_k` rows of that order, which
is how PostgreSQL emits the window's output). -/

structure VRow where
  id : Nat
  text : String
  vector : List ℚ
  fts_tokens : String
deriving DecidableEq, Repr

/-- CTE `vector_results`: every row of the collection is ranked by ascending
`vector <=> :vector`, then `LIMIT :top_k` keeps the first `top_k`
`(id, rank)` pairs. -/
def vector_results (dist : List ℚ → ℚ) (rows : List VRow) (top_k : Nat) :
    List (Nat × Nat) :=
  (((rows.insertionSort (fun a b => dist a.vector ≤ dist b.vector)).enum.map
      (fun p => (p.2.id, p.1 + 1))).take top_k)

/-- CTE `keyword_results`: the rows whose `fts_tokens` match the query are
ranked by descending `ts_rank_cd`, then `LIMIT :top_k` keeps the first
`top_k` `(id, rank)` pairs. -/
def keyword_results (kwMatch : String → Bool) (kwRank : String → ℚ)
    (rows : List VRow) (top_k : Nat) : List (Nat × Nat) :=
  ((((rows.filter (fun r => kwMatch r.fts_tokens)).insertionSort
      (fun a b => kwRank b.fts_tokens ≤ kwRank a.fts_tokens)).enum.map
      (fun p => (p.2.id, p.1 + 1))).take top_k)

/-- FULL OUTER JOIN of the two CTE results on `id`: every dense candidate
paired with its lexical rank when present, then the lexical-only candidates. -/
def full_outer (v k : List (Nat × Nat)) : List (Nat × Option Nat × Option Nat) :=
  v.map (fun p => (p.1, some p.2, k.lookup p.1)) ++
    (k.filter (fun p => (v.lookup p.1).isNone)).map (fun p => (p.1, none, some p.2))

/-- Fused score `COALESCE(1.0/(:rrf_k + v.rank), 0.0) + COALESCE(1.0/(:rrf_k + k.rank), 0.0)`:
an absent modality contributes `0`. -/
def rrf_score (rrf_k : ℚ) (rv rk : Option Nat) : ℚ :=
  (match rv with
   | some r => 1 / (rrf_k + (r : ℚ))
   | none => 0) +
  (match rk with
   | some r => 1 / (rrf_k + (r : ℚ))
   | none => 0)

/-- Text of the collection row joined back by `t.id = COALESCE(v.id, k.id)`
(`id` is a SERIAL primary key, so `find?` resolves the join). -/
def joined_text (rows : List VRow) (id : Nat) : String :=
  ((rows.find? (fun r => r.id = id)).map (fun r => r.text)).getD ""

/-- Hybrid search over a collection.  `none` models the `return False` taken
when the collection does not exist; otherwise the fused candidates are
sorted by score descending, truncated to `top_k`, and returned as
`(text, score)` pairs (the shape of the `RetrievedDocument` list the
provider builds from the fetched records). -/
def search_by_vector (dist : List ℚ → ℚ) (kwMatch : String → Bool)
    (kwRank : String → ℚ) (collection : Option (List VRow)) (top_k : Nat)
    (rrf_k : ℚ) : Option (List (String × ℚ)) :=
  match collection with
  | none => none
  | some rows =>
    let v := vector_results dist rows top_k
    let k := keyword_results kwMatch kwRank rows top_k
    let scored := (full_outer v k).map
      (fun c => (c.1, rrf_score rrf_k c.2.1 c.2.2))
    let sorted := scored.insertionSort (fun a b => b.2 ≤ a.2)
    some ((sorted.take top_k).map (fun p => (joined_text rows p.1, p.2)))

/-! ### `PGVectorProvider.insert_many` and index creation
(src/stores/vectordb/providers/PGVectorProvider.py)

```python
async def insert_many(self, collection_name, texts, vectors, metadata=None,
                      record_ids=None, batch_size=50, index_type=..., language=SupportedLanguages.ENGLISH.value):
    if not await self.is_collection_existed(collection_name):
        return False
    if len(vectors) != len(record_ids):
        return False
    if not metadata or len(metadata) == 0:
        metadata = [None] * len(texts)
    async with self.db_client() as session:
        async with session.begin():
            for i in range(0, len(texts), batch_size):
                ... values.append((_text, _vector, _metadata, _record_id, language.value)) ...
                await session.execute(batch_insert_sql, values)
    await self.create_all_indexes(collection_name, index_type)
    return True
```

Key facts carried into the model:

* `len(texts)` is never compared with the other lengths; each batch is the
  `zip` of four slices, which truncates to the shortest slice.
* the default of `language` is `SupportedLanguages.ENGLISH.value`, the plain
  string `'english'`; building the first row of the first batch evaluates
  `language.value`, which on a plain string raises `AttributeError`.  Passing
  the enum member itself makes `language.value` a string.
* all batches run in one `session.begin()` block: an exception inside it
  rolls everything back, and the block commits before `create_all_indexes`.
* `create_all_indexes` (called after the commit, outside any try/except)
  counts the rows; below `self.index_threshold` it returns `False`, otherwise
  it calls `self._create_embed_vector_index`, whose body evaluates
  `self.default_index_name(...)` — an attribute the provider never defines
  (only `default_embed_index_name` and `default_gin_index_name` exist), so it
  raises `AttributeError` unless the embed index already exists — and then
  `self._create_gin_vector_index(collection_name, index_type)`, passing two
  positional arguments to a method declared with one, which raises
  `TypeError` at the call.
-/

/-- Value of the `language` keyword argument: the Python default
`SupportedLanguages.ENGLISH.value` is the plain string `'english'`, while a
caller may instead pass an enum member, whose `.value` attribute exists. -/
inductive PyLanguage where
  /-- A `SupportedLanguages` enum member with the given `value`. -/
  | enumMember (value : String)
  /-- A plain Python string (the default, `'english'`). -/
  | plainStr (s : String)
deriving DecidableEq, Repr

/-- Attribute access `language.value`: the member's value, or
`AttributeError` on a plain string. -/
def PyLanguage.valueAttr : PyLanguage → Except PyError String
  | .enumMember v => .ok v
  | .plainStr _ => .error (.attributeError "value")

/-- One row of a pgvector collection as `insert_many` writes it (metadata is
kept as the caller-supplied optional value; `json.dumps` is serialization
only). -/
structure InsRow where
  text : String
  vector : List ℚ
  metadata : Option String
  chunk_id : Nat
  language : String
deriving DecidableEq, Repr

/-- State of one pgvector collection: its rows and whether each of the two
optional indexes exists (`pg_indexes` entries). -/
structure PgCollection where
  rows : List InsRow
  embed_index : Bool
  gin_index : Bool
deriving DecidableEq, Repr

/-- Attributes the provider object actually defines for index naming; the
body of `_create_embed_vector_index` instead looks up `default_index_name`. -/
def providerIndexNameAttrs : List String :=
  ["default_embed_index_name", "default_gin_index_name"]

/-- Attribute lookup `self.<name>` on the provider object, for the index-name
helpers. -/
def providerAttr (name : String) : Except PyError Unit :=
  if name ∈ providerIndexNameAttrs then .ok () else .error (.attributeError name)

/-- Method `is_index_existed(collection_name, indexing_method)`. -/
def is_index_existed (c : PgCollection) (indexing_method : String) : Bool :=
  if indexing_method = "embed" then c.embed_index else c.gin_index

/-- Method `_create_embed_vector_index`: returns `False` when the embed index
already exists; otherwise its body evaluates `self.default_index_name(...)`,
an attribute that does not exist, so it raises `AttributeError` before
executing any `CREATE INDEX`. -/
def create_embed_vector_index (c : PgCollection) :
    Except PyError (PgCollection × Bool) :=
  if is_index_existed c "embed" then .ok (c, false)
  else
    match providerAttr "default_index_name" with
    | .error e => .error e
    | .ok _ => .ok ({ c with embed_index := true }, true)

/-- The call `self._create_gin_vector_index(collection_name, index_type)`
inside `create_all_indexes`: the method is declared as
`_create_gin_vector_index(self, collection_name)`, so passing `index_type`
as a second positional argument raises `TypeError` at the call, before the
method body runs. -/
def call_create_gin_vector_index_with_index_type (c : PgCollection) :
    Except PyError (PgCollection × Bool) :=
  .error .typeError

/-- Method `create_all_indexes`: counts the rows; below the threshold it logs
and returns `False`, otherwise it runs the two index-creation steps. -/
def create_all_indexes (c : PgCollection) (index_threshold : Nat) :
    Except PyError (PgCollection × Bool) :=
  if c.rows.length < index_threshold then .ok (c, false)
  else
    match create_embed_vector_index c with
    | .error e => .error e
    | .ok (c2, _) =>
      match call_create_gin_vector_index_with_index_type c2 with
      | .error e => .error e
      | .ok (c3, _) => .ok (c3, true)

/-- Building the `values` row dictionaries for one batch, i.e. the loop
`for _text, _vector, _metadata, _record_id in zip(...)`: each iteration
evaluates `language.value`. -/
def buildRows (language : PyLanguage) :
    List ((String × List ℚ) × (Option String × Nat)) →
    Except PyError (List InsRow)
  | [] => .ok []
  | ((t, v), (m, cid)) :: rest =>
    match language.valueAttr with
    | .error e => .error e
    | .ok lv =>
      match buildRows language rest with
      | .error e => .error e
      | .ok rs => .ok (⟨t, v, m, cid, lv⟩ :: rs)

/-- The batching loop `for i in range(0, len(texts), batch_size)`: each batch
zips the four slices `[i:i+batch_size]` (truncating to the shortest) and
builds its rows.  `range` with step `0` raises `ValueError` in Python. -/
def insert_batches (language : PyLanguage) (batch_size : Nat)
    (texts : List String) (vectors : List (List ℚ))
    (metadata : List (Option String)) (record_ids : List Nat) :
    Except PyError (List InsRow) :=
  if h0 : batch_size = 0 then .error .valueError
  else if he : texts.isEmpty then .ok []
  else
    match buildRows language
        (((texts.take batch_size).zip (vectors.take batch_size)).zip
          ((metadata.take batch_size).zip (record_ids.take batch_size))) with
    | .error e => .error e
    | .ok first =>
      match insert_batches language batch_size (texts.drop batch_size)
          (vectors.drop batch_size) (metadata.drop batch_size)
          (record_ids.drop batch_size) with
      | .error e => .error e
      | .ok rest => .ok (first ++ rest)
termination_by texts.length
decreasing_by
  simp only [List.length_drop]
  have ht : texts.length ≠ 0 := by
    simpa [List.isEmpty_iff_length_eq_zero] using he
  omega

/-- Method `insert_many`.  The first component of the result is the
collection's state after the call (rows committed by the `session.begin()`
block survive a later exception); the second is the call's outcome: the
returned boolean, or the Python exception it raises. -/
def insert_many (collection : Option PgCollection) (texts : List String)
    (vectors : List (List ℚ)) (metadata : List (Option String))
    (record_ids : List Nat) (batch_size : Nat) (language : PyLanguage)
    (index_threshold : Nat) :
    Option PgCollection × Except PyError Bool :=
  match collection with
  | none => (none, .ok false)
  | some c =>
    if vectors.length ≠ record_ids.length then (some c, .ok false)
    else
      let md := if metadata.isEmpty then
          List.replicate texts.length none
        else metadata
      match insert_batches language batch_size texts vectors md record_ids with
      | .error e => (some c, .error e)
      | .ok newRows =>
        let c2 : PgCollection := { c with rows := c.rows ++ newRows }
        match create_all_indexes c2 index_threshold with
        | .error e => (some c2, .error e)
        | .ok (c3, _) => (some c3, .ok true)

/-! ### Push loop of `index_project` (src/routes/nlp.py)

```python
has_records = True; page_no = 1; inserted_count = 0; idx = 0
while has_records:
    chunks = await chunk_data_model.get_poject_chunks(project_id, page_no)
    if len(chunks): page_no += 1
    if not chunks: has_records = False; break
    chunk_ids = [c.chunk_id for c in chunks]
    inserted_count += 1
    idx += len(chunks)
    is_inserted = await nlp_controller.index_into_vector_db(project, chunks, chunk_ids)
    if not is_inserted:
        return JSONResponse(500, {"signal": INDEXING_FAILED})
    inserted_count += len(chunks)
return JSONResponse(200, {"signal": INDEXING_COMPLETED, "indexed_chunks": inserted_count})
```

`get_poject_chunks` is paginated with increasing `page_no`; the successive
fetches are modelled as the list `pages` (a fetch past the end of the list
returns the empty page, which ends the loop).  The embed-and-insert step
`index_into_vector_db` (an external round trip through the embedding client
and the vector store) is the parameter `insertOk`.  Chunks are represented
by their `chunk_id`. -/

/-- The `while has_records` loop, accumulating `inserted_count`; `.error ()`
is the early `INDEXING_FAILED` return, `.ok n` the final `indexed_chunks`. -/
def pushLoop (insertOk : List Nat → Bool) :
    List (List Nat) → Nat → Except Unit Nat
  | [], inserted_count => .ok inserted_count
  | chunks :: rest, inserted_count =>
    if chunks.length = 0 then .ok inserted_count
    else if insertOk chunks then
      pushLoop insertOk rest (inserted_count + 1 + chunks.length)
    else .error ()

/-- The `POST /nlp/push/{project_id}` body after collection creation: the
pagination loop started with `inserted_count = 0`. -/
def index_project (insertOk : List Nat → Bool) (pages : List (List Nat)) :
    Except Unit Nat :=
  pushLoop insertOk pages 0

/-! ### `process_endpoint` (src/routes/data.py)

```python
if process_request.file_id:
    asset = await asset_model.get_asset_record(...)
    if not asset:
        return JSONResponse(400, {"signal": ResponseStatus.FILE_NOT_FOUND.value})
    project_files_ids[asset.asset_id] = asset.asset_name
else:
    assets = await asset_model.get_all_project_assets(...)
    project_files_ids = {asset.asset_id: asset.asset_name for asset in assets}
if len(project_files_ids) == 0:
    return JSONResponse(400, {"signal": ResponseStatus.NO_FILES_TO_PROCESS.value})
...
no_records = 0; no_files = 0
for asset_id, file_id in project_files_ids.items():
    file_content = process_controller.get_file_content(file_id)
    if file_content is None:
        return JSONResponse(400, {"signal": ResponseStatus.FILE_READ_FAILED.value})
    file_chunks = process_controller.process_file_content(...)
    if file_chunks is None or len(file_chunks) == 0:
        return JSONResponse(400, {"signal": ResponseStatus.PROCESSING_FAILED.value})
    file_chunk_records = [DataChunk(...) for i, chunk in enumerate(file_chunks)]
    no_records = await chunk_data_model.insert_many_chunks(file_chunk_records)
    no_files += 1
return JSONResponse({"signal": ResponseStatus.FILE_PROCESSING_COMPLETED.value,
                     "files_processed": no_files, "records_created": no_records})
```

`insert_many_chunks` (src/models/ChunkDataModel.py) returns `len(chunks)`;
note `no_records` is assigned, not accumulated.  Every error branch
evaluates `ResponseStatus.<NAME>.value` for a member name that
`ResponseStatus` does not define, which raises `AttributeError` instead of
producing the JSON response.  The asset store and the file
reading/chunking steps (`ProcessController` is an external collaborator
here) are parameters; `do_reset` only touches external state (collection
drop, chunk delete) and does not affect the counts, so it is omitted. -/

structure PAsset where
  asset_id : Nat
  asset_name : String
deriving DecidableEq, Repr

/-- One JSON response of the process endpoint: HTTP status code, `signal`,
and the `(files_processed, records_created)` payload when present. -/
structure DResp where
  status_code : Nat
  signal : String
  counts : Option (Nat × Nat)
deriving DecidableEq, Repr

/-- The `for asset_id, file_id in project_files_ids.items()` loop.
`getContent` models `process_controller.get_file_content(file_id)` and
`chunksOf` models `process_controller.process_file_content(...)` (returning
the chunk texts, or `none` for Python `None`). -/
def processLoop (getContent : String → Option String)
    (chunksOf : String → Option (List String)) :
    List PAsset → Nat → Nat → Except PyError DResp
  | [], no_files, no_records =>
    match responseStatusValue "FILE_PROCESSING_COMPLETED" with
    | .error e => .error e
    | .ok s => .ok ⟨200, s, some (no_files, no_records)⟩
  | a :: rest, no_files, no_records =>
    match getContent a.asset_name with
    | none =>
      match responseStatusValue "FILE_READ_FAILED" with
      | .error e => .error e
      | .ok s => .ok ⟨400, s, none⟩
    | some content =>
      match chunksOf content with
      | none =>
        match responseStatusValue "PROCESSING_FAILED" with
        | .error e => .error e
        | .ok s => .ok ⟨400, s, none⟩
      | some cs =>
        if cs.length = 0 then
          match responseStatusValue "PROCESSING_FAILED" with
          | .error e => .error e
          | .ok s => .ok ⟨400, s, none⟩
        else processLoop getContent chunksOf rest (no_files + 1) cs.length

/-- The `POST /upload/process/{project_id}` body: file resolution
(`lookupAsset` models `asset_model.get_asset_record`, `allAssets` the result
of `get_all_project_assets`), the emptiness check, then the per-file loop. -/
def process_endpoint (file_id : Option String)
    (lookupAsset : String → Option PAsset) (allAssets : List PAsset)
    (getContent : String → Option String)
    (chunksOf : String → Option (List String)) : Except PyError DResp :=
  match file_id with
  | some fid =>
    match lookupAsset fid with
    | none =>
      match responseStatusValue "FILE_NOT_FOUND" with
      | .error e => .error e
      | .ok s => .ok ⟨400, s, none⟩
    | some a =>
      if ([a] : List PAsset).length = 0 then
        match responseStatusValue "NO_FILES_TO_PROCESS" with
        | .error e => .error e
        | .ok s => .ok ⟨400, s, none⟩
      else processLoop getContent chunksOf [a] 0 0
  | none =>
    if allAssets.length = 0 then
      match responseStatusValue "NO_FILES_TO_PROCESS" with
      | .error e => .error e
      | .ok s => .ok ⟨400, s, none⟩
    else processLoop getContent chunksOf allAssets 0 0

/-- Chunk count the process loop persists for one asset (the length of the
chunk list obtained by reading then chunking the file). -/
def fileChunkCount (getContent : String → Option String)
    (chunksOf : String → Option (List String)) (a : PAsset) : Nat :=
  (((getContent a.asset_name).bind chunksOf).getD []).length

/-! ## Theorems -/

/-- C7: `validate_file` accepts a file iff its MIME content type is in
`FILE_ALLOWED_TYPES` and its size is at most `FILE_MAX_SIZE` megabytes; a
file of exactly `FILE_MAX_SIZE * 2^20` bytes is accepted and one byte more
is rejected with the typed signal `file_size_exceeded`. -/
theorem validate_file_boundary (file_allowed_types : List String)
    (file_max_size : Nat) (content_type : String) (size : Nat) :
    ((validate_file file_allowed_types file_max_size content_type size).1 = true ↔
      (content_type ∈ file_allowed_types ∧ size ≤ file_max_size * 2 ^ 20))
    ∧ (content_type ∈ file_allowed_types →
        validate_file file_allowed_types file_max_size content_type
            (file_max_size * 2 ^ 20) = (true, "file_validate_successfully")
        ∧ validate_file file_allowed_types file_max_size content_type
            (file_max_size * 2 ^ 20 + 1) = (false, "file_size_exceeded")) := by
  have hscale : scale_mb = 2 ^ 20 := by norm_num [scale_mb]
  have hv1 : (responseStatusValue "FILE_TYPE_NOT_SUPPORTED").toOption.getD ""
      = "file_type_not_supported" := rfl
  have hv2 : (responseStatusValue "FILE_SIZE_EXCEEDED").toOption.getD ""
      = "file_size_exceeded" := rfl
  have hv3 : (responseStatusValue "FILE_VALIDATED_SUCCESS").toOption.getD ""
      = "file_validate_successfully" := rfl
  refine ⟨?_, fun hmem => ⟨?_, ?_⟩⟩
  · unfold validate_file
    rw [hscale]
    by_cases hmem : content_type ∈ file_allowed_types
    · rw [if_neg (not_not_intro hmem)]
      by_cases hsz : file_max_size * 2 ^ 20 < size
      · rw [if_pos hsz]
        constructor
        · intro hfalse
          simp at hfalse
        · intro hand
          have hle := hand.2
          omega
      · rw [if_neg hsz]
        constructor
        · intro _
          exact ⟨hmem, by omega⟩
        · intro _
          rfl
    · rw [if_pos hmem]
      constructor
      · intro hfalse
        simp at hfalse
      · intro hand
        exact absurd hand.1 hmem
  · unfold validate_file
    rw [hscale, hv3]
    rw [if_neg (by simpa using hmem), if_neg (by omega)]
  · unfold validate_file
    rw [hscale, hv2]
    rw [if_neg (by simpa using hmem), if_pos (by omega)]

/-- Witness for C7 at a concrete input: `text/plain` in the allow-list with
limit 1 MB; the boundary size is accepted, one byte more rejected. -/
theorem validate_file_boundary_witness :
    ((validate_file ["text/plain"] 1 "text/plain" 100).1 = true ↔
      ("text/plain" ∈ ["text/plain"] ∧ 100 ≤ 1 * 2 ^ 20))
    ∧ validate_file ["text/plain"] 1 "text/plain" (1 * 2 ^ 20)
        = (true, "file_validate_successfully")
    ∧ validate_file ["text/plain"] 1 "text/plain" (1 * 2 ^ 20 + 1)
        = (false, "file_size_exceeded") :=
  ⟨(validate_file_boundary ["text/plain"] 1 "text/plain" 100).1,
    ((validate_file_boundary ["text/plain"] 1 "text/plain" 100).2
      (by decide)).1,
    ((validate_file_boundary ["text/plain"] 1 "text/plain" 100).2
      (by decide)).2⟩

/-- C8 counterexample: on one candidate document and an LLM response that
parses to the empty JSON array, `rerank` returns the empty list, not the
original order truncated to `top_n` (the claim asserts the fallback is
taken when the parsed result is empty). -/
theorem rerank_empty_result_counterexample :
    rerank [⟨"doc"⟩] 10 (.ok []) = []
    ∧ ([⟨"doc"⟩] : List RDoc).take 10 = [⟨"doc"⟩]
    ∧ ([] : List RDoc) ≠ [⟨"doc"⟩] := by
  decide

/-- C8 amended: on a non-empty candidate list, an exception before the list
comprehension (provider error or non-JSON response, modelled `.error ()`) or
an `IndexError` inside it makes `rerank` fall back to the original order
truncated to `top_n`; but a successfully parsed empty JSON array yields the
empty list, not the fallback. -/
theorem rerank_fallback (documents : List RDoc) (top_n : Nat) :
    (documents ≠ [] → rerank documents top_n (.error ()) = documents.take top_n)
    ∧ rerank documents top_n (.ok []) = []
    ∧ (∀ idxs, documents ≠ [] → selectDocs documents idxs = none →
        rerank documents top_n (.ok idxs) = documents.take top_n) := by
  refine ⟨fun hne => ?_, ?_, fun idxs hne hsel => ?_⟩
  · unfold rerank
    rw [if_neg (by simpa [List.isEmpty_iff] using hne)]
  · unfold rerank
    by_cases he : documents.isEmpty
    · rw [if_pos he]
    · rw [if_neg he]
      simp [selectDocs]
  · unfold rerank
    rw [if_neg (by simpa [List.isEmpty_iff] using hne)]
    show (match selectDocs documents idxs with
          | none => documents.take top_n
          | some ds => ds) = documents.take top_n
    rw [hsel]

/-- Witness for C8 amended at concrete inputs: two documents, `top_n = 1`. -/
theorem rerank_fallback_witness :
    rerank [⟨"a"⟩, ⟨"b"⟩] 1 (.error ()) = [⟨"a"⟩]
    ∧ rerank [⟨"a"⟩, ⟨"b"⟩] 1 (.ok []) = []
    ∧ rerank [⟨"a"⟩, ⟨"b"⟩] 1 (.ok [-5]) = [⟨"a"⟩] :=
  ⟨(rerank_fallback [⟨"a"⟩, ⟨"b"⟩] 1).1 (by decide),
    (rerank_fallback [⟨"a"⟩, ⟨"b"⟩] 1).2.1,
    (rerank_fallback [⟨"a"⟩, ⟨"b"⟩] 1).2.2 [-5] (by decide) (by decide)⟩

/-- C9: every error branch of the process endpoint evaluates
`ResponseStatus.<NAME>.value` for a member (`FILE_NOT_FOUND`,
`NO_FILES_TO_PROCESS`, `FILE_READ_FAILED`, `PROCESSING_FAILED`) that the
enum does not define, so the branch raises `AttributeError` instead of
returning a response with a typed signal. -/
theorem process_endpoint_error_branches :
    (responseStatusMembers.lookup "FILE_NOT_FOUND" = none
      ∧ responseStatusMembers.lookup "NO_FILES_TO_PROCESS" = none
      ∧ responseStatusMembers.lookup "FILE_READ_FAILED" = none
      ∧ responseStatusMembers.lookup "PROCESSING_FAILED" = none)
    ∧ (∀ fid lookupAsset allAssets getContent chunksOf,
        lookupAsset fid = none →
        process_endpoint (some fid) lookupAsset allAssets getContent chunksOf
          = .error (.attributeError "FILE_NOT_FOUND"))
    ∧ (∀ lookupAsset getContent chunksOf,
        process_endpoint none lookupAsset [] getContent chunksOf
          = .error (.attributeError "NO_FILES_TO_PROCESS"))
    ∧ (∀ getContent chunksOf a rest no_files no_records,
        getContent a.asset_name = none →
        processLoop getContent chunksOf (a :: rest) no_files no_records
          = .error (.attributeError "FILE_READ_FAILED"))
    ∧ (∀ getContent chunksOf a rest no_files no_records content,
        getContent a.asset_name = some content →
        (chunksOf content = none ∨ chunksOf content = some []) →
        processLoop getContent chunksOf (a :: rest) no_files no_records
          = .error (.attributeError "PROCESSING_FAILED")) := by
  refine ⟨by decide, ?_, ?_, ?_, ?_⟩
  · intro fid lookupAsset allAssets getContent chunksOf hla
    have h : responseStatusValue "FILE_NOT_FOUND"
        = .error (.attributeError "FILE_NOT_FOUND") := rfl
    simp [process_endpoint, hla, h]
  · intro lookupAsset getContent chunksOf
    have h : responseStatusValue "NO_FILES_TO_PROCESS"
        = .error (.attributeError "NO_FILES_TO_PROCESS") := rfl
    simp [process_endpoint, h]
  · intro getContent chunksOf a rest no_files no_records hgc
    have h : responseStatusValue "FILE_READ_FAILED"
        = .error (.attributeError "FILE_READ_FAILED") := rfl
    simp [processLoop, hgc, h]
  · intro getContent chunksOf a rest no_files no_records content hgc hco
    have hpf : responseStatusValue "PROCESSING_FAILED"
        = .error (.attributeError "PROCESSING_FAILED") := rfl
    rcases hco with hco | hco <;>
      simp [processLoop, hgc, hco, hpf]

/-- Witness for C9 at concrete inputs: each of the four error branches taken
on explicit data raises the corresponding `AttributeError`. -/
theorem process_endpoint_error_branches_witness :
    process_endpoint (some "f") (fun _ => none) [] (fun _ => none)
        (fun _ => none) = .error (.attributeError "FILE_NOT_FOUND")
    ∧ process_endpoint none (fun _ => none) [] (fun _ => none) (fun _ => none)
        = .error (.attributeError "NO_FILES_TO_PROCESS")
    ∧ processLoop (fun _ => none) (fun _ => none) [⟨1, "a"⟩] 0 0
        = .error (.attributeError "FILE_READ_FAILED")
    ∧ processLoop (fun _ => some "text") (fun _ => some []) [⟨1, "a"⟩] 0 0
        = .error (.attributeError "PROCESSING_FAILED") :=
  ⟨process_endpoint_error_branches.2.1 "f" (fun _ => none) [] (fun _ => none)
      (fun _ => none) rfl,
    process_endpoint_error_branches.2.2.1 (fun _ => none) (fun _ => none)
      (fun _ => none),
    process_endpoint_error_branches.2.2.2.1 (fun _ => none) (fun _ => none)
      ⟨1, "a"⟩ [] 0 0 rfl,
    process_endpoint_error_branches.2.2.2.2 (fun _ => some "text")
      (fun _ => some []) ⟨1, "a"⟩ [] 0 0 "text" rfl (Or.inr rfl)⟩

/-- C5 counterexample: one page of two chunks, insertion succeeding; the
returned `indexed_chunks` is 3 (the loop adds 1 per page on top of the
page's chunk count), not the 2 chunks actually inserted. -/
theorem index_project_count_counterexample :
    index_project (fun _ => true) [[1, 2]] = .ok 3
    ∧ (([[1, 2]] : List (List Nat)).map List.length).sum = 2
    ∧ index_project (fun _ => true) [[1, 2]]
        ≠ .ok ((([[1, 2]] : List (List Nat)).map List.length).sum) := by
  refine ⟨rfl, rfl, ?_⟩
  intro h
  rw [show index_project (fun _ => true) [[1, 2]] = .ok 3 from rfl] at h
  simp at h

/-- Helper for C5: the push loop started at any accumulator returns, on
success, the accumulator plus `chunks + 1` for every non-empty page it
consumed. -/
theorem pushLoop_ok_count (insertOk : List Nat → Bool) :
    ∀ (pages : List (List Nat)) (acc n : Nat),
      pushLoop insertOk pages acc = .ok n →
      n = acc + ((pages.takeWhile (fun p => !p.isEmpty)).map
        (fun p => p.length + 1)).sum := by
  intro pages
  induction pages with
  | nil =>
    intro acc n h
    simp only [pushLoop] at h
    cases h
    simp
  | cons p rest ih =>
    intro acc n h
    by_cases hp : p.length = 0
    · have hpe : p.isEmpty := by
        simpa [List.isEmpty_iff_length_eq_zero] using hp
      rw [pushLoop, if_pos hp] at h
      cases h
      simp [List.takeWhile_cons, hpe]
    · have hpn : p ≠ [] := fun hcon => hp (by simp [hcon])
      have hpe : p.isEmpty = false := by
        simpa [List.isEmpty_iff] using hpn
      rw [pushLoop, if_neg hp] at h
      by_cases hins : insertOk p
      · rw [if_pos hins] at h
        have := ih (acc + 1 + p.length) n h
        simp [List.takeWhile_cons, hpe] at this ⊢
        omega
      · rw [if_neg hins] at h
        cases h

/-- C5 amended: on successful completion the returned `indexed_chunks`
equals the total number of chunks inserted during the request PLUS the
number of non-empty pages consumed (the loop increments the counter once
per page and once per chunk of the page). -/
theorem index_project_count (insertOk : List Nat → Bool)
    (pages : List (List Nat)) (n : Nat) :
    index_project insertOk pages = .ok n →
    n = ((pages.takeWhile (fun p => !p.isEmpty)).map List.length).sum
        + (pages.takeWhile (fun p => !p.isEmpty)).length := by
  intro h
  have := pushLoop_ok_count insertOk pages 0 n h
  simp at this
  omega

/-- Witness for C5 amended: one page of one chunk, insertion succeeding;
`indexed_chunks` is 2 = 1 chunk + 1 page. -/
theorem index_project_count_witness :
    (2 : Nat) = ((([[5]] : List (List Nat)).takeWhile
        (fun p => !p.isEmpty)).map List.length).sum
      + (([[5]] : List (List Nat)).takeWhile (fun p => !p.isEmpty)).length :=
  index_project_count (fun _ => true) [[5]] 2 rfl

/-- C6 counterexample: two assets producing 2 and 3 chunks; the response
reports `records_created = 3` (the last file's chunk count, because
`no_records` is assigned rather than accumulated), not the 5 chunks
persisted in total. -/
theorem process_endpoint_records_counterexample :
    process_endpoint none (fun _ => none) [⟨1, "a"⟩, ⟨2, "b"⟩]
        (fun n => some n)
        (fun c => if c = "a" then some ["c1", "c2"] else some ["d1", "d2", "d3"])
      = .ok ⟨200, "file_processing_completed", some (2, 3)⟩
    ∧ (2 + 3 : Nat) ≠ 3 := by
  exact ⟨rfl, by decide⟩

/-- Helper for C6: when every asset in the list reads and chunks
successfully, the loop returns the completed response with the file counter
advanced by the list's length and `no_records` equal to the LAST file's
chunk count (or the incoming value for an empty list). -/
theorem processLoop_all_ok (getContent : String → Option String)
    (chunksOf : String → Option (List String)) :
    ∀ (fs : List PAsset) (no_files no_records : Nat),
      (∀ a ∈ fs, ∃ cs, ((getContent a.asset_name).bind chunksOf) = some cs
        ∧ cs.length ≠ 0) →
      processLoop getContent chunksOf fs no_files no_records
        = .ok ⟨200, "file_processing_completed",
            some (no_files + fs.length,
              (fs.map (fileChunkCount getContent chunksOf)).getLastD no_records)⟩ := by
  intro fs
  induction fs with
  | nil =>
    intro no_files no_records _
    simp [processLoop]
    rfl
  | cons a rest ih =>
    intro no_files no_records hall
    obtain ⟨cs, hbind, hne⟩ := hall a (by simp)
    obtain ⟨content, hgc, hco⟩ : ∃ content,
        getContent a.asset_name = some content ∧ chunksOf content = some cs := by
      cases hg : getContent a.asset_name with
      | none => rw [hg] at hbind; cases hbind
      | some content => exact ⟨content, rfl, by rw [hg] at hbind; exact hbind⟩
    have hcount : fileChunkCount getContent chunksOf a = cs.length := by
      unfold fileChunkCount
      rw [hgc]
      simp [hco]
    rw [processLoop, hgc]
    show (match chunksOf content with
          | none => _
          | some cs => _) = _
    rw [hco]
    show (if cs.length = 0 then _
          else processLoop getContent chunksOf rest (no_files + 1) cs.length) = _
    rw [if_neg hne]
    rw [ih (no_files + 1) cs.length (fun b hb => hall b (by simp [hb]))]
    simp only [List.map_cons, List.getLastD_cons, hcount, List.length_cons]
    have harith : no_files + 1 + rest.length = no_files + (rest.length + 1) := by
      omega
    rw [harith]

/-- C6 amended: on successful completion over the project's FILE assets,
`files_processed` equals the number of files processed, but
`records_created` equals the chunk count persisted for the LAST processed
file only (`no_records` is overwritten per file), not the sum across all
files of the request. -/
theorem process_endpoint_counts (lookupAsset : String → Option PAsset)
    (allAssets : List PAsset) (getContent : String → Option String)
    (chunksOf : String → Option (List String)) :
    allAssets ≠ [] →
    (∀ a ∈ allAssets, ∃ cs, ((getContent a.asset_name).bind chunksOf) = some cs
      ∧ cs.length ≠ 0) →
    process_endpoint none lookupAsset allAssets getContent chunksOf
      = .ok ⟨200, "file_processing_completed",
          some (allAssets.length,
            (allAssets.map (fileChunkCount getContent chunksOf)).getLastD 0)⟩ := by
  intro hne hall
  unfold process_endpoint
  rw [if_neg (by simpa [List.length_eq_zero] using hne)]
  simpa using processLoop_all_ok getContent chunksOf allAssets 0 0 hall

/-- Witness for C6 amended at the concrete two-file input: the response is
`files_processed = 2`, `records_created = 3` (the last file's chunks). -/
theorem process_endpoint_counts_witness :
    process_endpoint none (fun _ => none) [⟨1, "a"⟩, ⟨2, "b"⟩]
        (fun n => some n)
        (fun c => if c = "a" then some ["c1", "c2"] else some ["d1", "d2", "d3"])
      = .ok ⟨200, "file_processing_completed",
          some (([⟨1, "a"⟩, ⟨2, "b"⟩] : List PAsset).length,
            (([⟨1, "a"⟩, ⟨2, "b"⟩] : List PAsset).map
              (fileChunkCount (fun n => some n)
                (fun c => if c = "a" then some ["c1", "c2"]
                  else some ["d1", "d2", "d3"]))).getLastD 0)⟩ :=
  process_endpoint_counts (fun _ => none) [⟨1, "a"⟩, ⟨2, "b"⟩]
    (fun n => some n)
    (fun c => if c = "a" then some ["c1", "c2"] else some ["d1", "d2", "d3"])
    (by decide)
    (by
      intro a ha
      simp only [List.mem_cons, List.mem_singleton] at ha
      rcases ha with rfl | rfl | h
      · exact ⟨["c1", "c2"], rfl, by decide⟩
      · exact ⟨["d1", "d2", "d3"], rfl, by decide⟩
      · cases h)

/-- Helper: with an enum-member `language`, every `language.value` lookup
succeeds, so `buildRows` maps each zipped tuple to its row dictionary. -/
theorem buildRows_enumMember (v : String) :
    ∀ l, buildRows (.enumMember v) l
      = .ok (l.map (fun q => ⟨q.1.1, q.1.2, q.2.1, q.2.2, v⟩)) := by
  intro l
  induction l with
  | nil => rfl
  | cons x rest ih =>
    obtain ⟨⟨t, vec⟩, m, cid⟩ := x
    simp [buildRows, PyLanguage.valueAttr, ih]

/-- Helper: with an enum-member `language` and a positive batch size, the
batching loop succeeds and builds exactly `min` of the four list lengths
rows (Python's `zip` truncates each batch to its shortest slice). -/
theorem insert_batches_length (v : String) (b : Nat) (hb : b ≠ 0) :
    ∀ (n : Nat) (ts : List String) (vs : List (List ℚ))
      (ms : List (Option String)) (ids : List Nat),
      ts.length ≤ n →
      ∃ rs, insert_batches (.enumMember v) b ts vs ms ids = .ok rs
        ∧ rs.length = min ts.length (min vs.length (min ms.length ids.length)) := by
  intro n
  induction n with
  | zero =>
    intro ts vs ms ids hlen
    have hts : ts = [] := List.length_eq_zero.mp (Nat.le_zero.mp hlen)
    subst hts
    refine ⟨[], ?_, by simp⟩
    rw [insert_batches]
    simp [hb]
  | succ n ih =>
    intro ts vs ms ids hlen
    by_cases hte : ts.isEmpty
    · have hts : ts = [] := List.isEmpty_iff.mp hte
      subst hts
      refine ⟨[], ?_, by simp⟩
      rw [insert_batches]
      simp [hb]
    · have htn : ts.length ≠ 0 := by
        simpa [List.isEmpty_iff_length_eq_zero] using hte
      obtain ⟨rs', hrec, hlen'⟩ :=
        ih (ts.drop b) (vs.drop b) (ms.drop b) (ids.drop b)
          (by simp only [List.length_drop]; omega)
      refine ⟨(((ts.take b).zip (vs.take b)).zip
          ((ms.take b).zip (ids.take b))).map
            (fun q => ⟨q.1.1, q.1.2, q.2.1, q.2.2, v⟩) ++ rs', ?_, ?_⟩
      · rw [insert_batches]
        simp only [dif_neg hb, hte, Bool.false_eq_true, ↓reduceDIte,
          buildRows_enumMember, hrec]
      · simp only [List.length_append, List.length_map, List.length_zip,
          List.length_take, List.length_drop] at hlen' ⊢
        omega

/-- C10 counterexample: a call that satisfies the length and existence
checks with EMPTY `texts` never reaches `language.value` (the batch loop
body never runs), so under the default plain-string language it still
returns the boolean `True` instead of raising `AttributeError`. -/
theorem insert_many_default_language_counterexample :
    insert_many (some ⟨[], false, false⟩) [] [] [] [] 50
        (.plainStr "english") 10
      = (some ⟨[], false, false⟩, .ok true) := by
  have h0 : insert_batches (.plainStr "english") 50 ([] : List String) [] [] []
      = .ok [] := by
    rw [insert_batches]
    simp
  unfold insert_many
  simp [h0, create_all_indexes]

/-- C10 amended: every `insert_many` call that passes the collection and
length checks with at least one text, one vector and one record id (and a
nonzero batch size) under the default plain-string language raises
`AttributeError` evaluating `language.value` while building the first row
of the first batch, before any row is inserted, so no such call inserts
rows or returns a boolean.  A call with empty `texts` never evaluates
`language`: below the index threshold it returns the boolean `True`, and
at or above the threshold it raises the index-creation error instead. -/
theorem insert_many_default_language (c : PgCollection) (texts : List String)
    (vectors : List (List ℚ)) (metadata : List (Option String))
    (record_ids : List Nat) (b thr : Nat) :
    (b ≠ 0 → texts ≠ [] → vectors ≠ [] → record_ids ≠ [] →
      vectors.length = record_ids.length →
      insert_many (some c) texts vectors metadata record_ids b
          (.plainStr "english") thr
        = (some c, .error (.attributeError "value")))
    ∧ (b ≠ 0 → vectors.length = record_ids.length →
      insert_many (some c) [] vectors metadata record_ids b
          (.plainStr "english") thr
        = (some c,
           if c.rows.length < thr then .ok true
           else .error (if c.embed_index then PyError.typeError
             else .attributeError "default_index_name"))) := by
  refine ⟨?_, ?_⟩
  · intro hb ht hv hr hlen
    rcases texts with _ | ⟨t0, ts⟩
    · exact absurd rfl ht
    rcases vectors with _ | ⟨v0, vs⟩
    · exact absurd rfl hv
    rcases record_ids with _ | ⟨r0, rs⟩
    · exact absurd rfl hr
    obtain ⟨b', rfl⟩ : ∃ b', b = b' + 1 := ⟨b - 1, by omega⟩
    obtain ⟨m0, mrest, hmd⟩ : ∃ m0 mrest,
        (if (metadata : List (Option String)) = [] then
          List.replicate (ts.length + 1) none else metadata) = m0 :: mrest := by
      by_cases hm : metadata = []
      · exact ⟨none, List.replicate ts.length none,
          by simp [hm, List.replicate_succ]⟩
      · obtain ⟨m0, mr, hm'⟩ := List.exists_cons_of_ne_nil hm
        exact ⟨m0, mr, by simp [hm, hm']⟩
    have hbatch : insert_batches (.plainStr "english") (b' + 1) (t0 :: ts)
        (v0 :: vs) (m0 :: mrest) (r0 :: rs)
        = .error (.attributeError "value") := by
      rw [insert_batches]
      simp [buildRows, PyLanguage.valueAttr]
    unfold insert_many
    simp [hmd, hbatch, hlen]
  · intro hb hvr
    obtain ⟨crows, cei, cgi⟩ := c
    have h0 : ∀ (vs : List (List ℚ)) (ms : List (Option String))
        (ids : List Nat),
        insert_batches (.plainStr "english") b [] vs ms ids = .ok [] := by
      intro vs ms ids
      rw [insert_batches]
      simp [hb]
    unfold insert_many
    simp only [hvr, ne_eq, not_true_eq_false, if_false, h0, List.append_nil]
    by_cases hth : crows.length < thr
    · simp [create_all_indexes, hth]
    · by_cases hei : cei
      · simp [create_all_indexes, hth, create_embed_vector_index,
          is_index_existed, hei, call_create_gin_vector_index_with_index_type]
      · simp [create_all_indexes, hth, create_embed_vector_index,
          is_index_existed, hei, providerAttr, providerIndexNameAttrs]

/-- Witness for C10 amended at concrete inputs: a one-row call raises
`AttributeError` on `language.value`; an empty-texts call below the
threshold returns `True`, and one at the threshold raises the
index-creation `AttributeError` instead. -/
theorem insert_many_default_language_witness :
    insert_many (some ⟨[], false, false⟩) ["a"] [[1]] [] [7] 50
        (.plainStr "english") 10
      = (some ⟨[], false, false⟩, .error (.attributeError "value"))
    ∧ insert_many (some ⟨[], false, false⟩) [] [] [] [] 50
        (.plainStr "english") 10
      = (some ⟨[], false, false⟩,
         if (0 : Nat) < 10 then .ok true
         else .error (if false then PyError.typeError
           else .attributeError "default_index_name"))
    ∧ insert_many (some ⟨[⟨"x", [1], none, 1, "english"⟩], false, false⟩)
        [] [] [] [] 50 (.plainStr "english") 1
      = (some ⟨[⟨"x", [1], none, 1, "english"⟩], false, false⟩,
         if (1 : Nat) < 1 then .ok true
         else .error (if false then PyError.typeError
           else .attributeError "default_index_name")) :=
  ⟨(insert_many_default_language ⟨[], false, false⟩ ["a"] [[1]] [] [7]
      50 10).1 (by decide) (by decide) (by decide) (by decide) (by decide),
   (insert_many_default_language ⟨[], false, false⟩ [] [] [] [] 50 10).2
      (by decide) (by decide),
   (insert_many_default_language ⟨[⟨"x", [1], none, 1, "english"⟩],
      false, false⟩ [] [] [] [] 50 1).2 (by decide) (by decide)⟩

/-- C3 counterexample: `len(texts) = 1` differs from
`len(vectors) = len(record_ids) = 2`, yet the call reports success and
inserts one row (the `zip` silently truncates): the claim's required
failure-and-insert-nothing behaviour does not happen, and success is
reported although the row count differs from `len(vectors)`. -/
theorem insert_many_length_counterexample :
    insert_many (some ⟨[], false, false⟩) ["a"] [[1], [2]] [] [1, 2] 50
        (.enumMember "english") 10
      = (some ⟨[⟨"a", [1], none, 1, "english"⟩], false, false⟩, .ok true)
    ∧ (["a"] : List String).length ≠ ([[1], [2]] : List (List ℚ)).length := by
  constructor
  · have h0 : insert_batches (.enumMember "english") 50 ([] : List String)
        [] [] [] = .ok [] := by
      rw [insert_batches]
      simp
    have h1 : insert_batches (.enumMember "english") 50 ["a"] [[1], [2]]
        [none] [1, 2] = .ok [⟨"a", [1], none, 1, "english"⟩] := by
      rw [insert_batches]
      simp [buildRows, PyLanguage.valueAttr, h0]
    unfold insert_many
    simp [h1, create_all_indexes]
  · decide

/-- C3 amended: `insert_many` reports failure and inserts nothing when the
collection is missing or when `len(vectors) ≠ len(record_ids)`
(`len(texts)` and `len(metadata)` are never validated); and whenever it
reports success the number of inserted rows is
`min(len(texts), len(vectors), len(record_ids), M)`, where `M` is
`len(metadata)` for non-empty metadata and `len(texts)` otherwise (empty
metadata is replaced by `[None] * len(texts)`) — this equals `len(vectors)`
only when neither `len(texts)` nor a shorter non-empty metadata is the
strict minimum. -/
theorem insert_many_checks (c : PgCollection) (texts : List String)
    (vectors : List (List ℚ)) (metadata : List (Option String))
    (record_ids : List Nat) (b thr : Nat) (lv : String) :
    (insert_many none texts vectors metadata record_ids b (.enumMember lv) thr
      = (none, .ok false))
    ∧ (vectors.length ≠ record_ids.length →
        insert_many (some c) texts vectors metadata record_ids b
            (.enumMember lv) thr = (some c, .ok false))
    ∧ (∀ c2, b ≠ 0 →
        insert_many (some c) texts vectors metadata record_ids b
            (.enumMember lv) thr = (some c2, .ok true) →
        c2.rows.length = c.rows.length
          + min texts.length (min vectors.length
              (min (if metadata.isEmpty then texts.length
                else metadata.length) record_ids.length))) := by
  refine ⟨rfl, fun hne => ?_, fun c2 hb heq => ?_⟩
  · unfold insert_many
    simp [hne]
  · obtain ⟨rs, hrs, hlen⟩ := insert_batches_length lv b hb texts.length
      texts vectors
      (if metadata.isEmpty then List.replicate texts.length none else metadata)
      record_ids le_rfl
    have hmdl : (if metadata.isEmpty then List.replicate texts.length none
        else metadata).length
        = if metadata.isEmpty then texts.length else metadata.length := by
      by_cases hme : metadata.isEmpty <;> simp [hme]
    rw [hmdl] at hlen
    by_cases hvr : vectors.length = record_ids.length
    · unfold insert_many at heq
      simp only [hvr, ne_eq, not_true_eq_false, if_false] at heq
      rw [hrs] at heq
      by_cases hth : c.rows.length + rs.length < thr
      · simp [create_all_indexes, hth] at heq
        rw [← heq]
        simp only [List.length_append]
        by_cases hme : metadata.isEmpty <;> simp [hme] at hlen ⊢ <;> omega
      · by_cases hei : c.embed_index
        · simp [create_all_indexes, hth, create_embed_vector_index,
            is_index_existed, hei,
            call_create_gin_vector_index_with_index_type] at heq
        · simp [create_all_indexes, hth, create_embed_vector_index,
            is_index_existed, hei, providerAttr, providerIndexNameAttrs] at heq
    · unfold insert_many at heq
      simp [hvr] at heq

/-- Witness for C3 amended at concrete inputs: missing collection, a
vectors/ids length mismatch, and a successful call whose non-empty metadata
is shorter than the other lists: two texts, vectors and record ids but one
metadata entry insert exactly one row while still reporting success. -/
theorem insert_many_checks_witness :
    insert_many none ["a"] [[1]] [] [3] 50 (.enumMember "english") 10
      = (none, .ok false)
    ∧ insert_many (some ⟨[], false, false⟩) ["a"] [[1], [2]] [] [1] 50
        (.enumMember "english") 10 = (some ⟨[], false, false⟩, .ok false)
    ∧ (⟨[⟨"a", [1], some "m", 1, "english"⟩], false, false⟩
        : PgCollection).rows.length
      = (⟨[], false, false⟩ : PgCollection).rows.length
        + min (["a", "b"] : List String).length
            (min ([[1], [2]] : List (List ℚ)).length
              (min (if ([some "m"] : List (Option String)).isEmpty then
                  (["a", "b"] : List String).length
                else ([some "m"] : List (Option String)).length)
                ([1, 2] : List Nat).length)) :=
  ⟨(insert_many_checks ⟨[], false, false⟩ ["a"] [[1]] [] [3] 50 10 "english").1,
   (insert_many_checks ⟨[], false, false⟩ ["a"] [[1], [2]] [] [1] 50 10
      "english").2.1 (by decide),
   (insert_many_checks ⟨[], false, false⟩ ["a", "b"] [[1], [2]] [some "m"]
      [1, 2] 50 10 "english").2.2
     ⟨[⟨"a", [1], some "m", 1, "english"⟩], false, false⟩
     (by decide)
     (by
       have h0 : insert_batches (.enumMember "english") 50 ([] : List String)
           [] [] [] = .ok [] := by
         rw [insert_batches]
         simp
       have h1 : insert_batches (.enumMember "english") 50 ["a", "b"]
           [[1], [2]] [some "m"] [1, 2]
           = .ok [⟨"a", [1], some "m", 1, "english"⟩] := by
         rw [insert_batches]
         simp [buildRows, PyLanguage.valueAttr, h0]
       unfold insert_many
       simp [h1, create_all_indexes])⟩

/-- Helper: taking a prefix commutes with `enumFrom` (the window ranks of
the first `k` rows are the first `k` window ranks). -/
theorem enumFrom_take_comm {α : Type} :
    ∀ (l : List α) (n k : Nat),
      (List.enumFrom n l).take k = List.enumFrom n (l.take k) := by
  intro l
  induction l with
  | nil =>
    intro n k
    simp
  | cons x xs ih =>
    intro n k
    cases k with
    | zero => simp
    | succ k =>
      simp [List.enumFrom, ih (n + 1) k]

/-- Helper: `enum` is `enumFrom 0`, so taking a prefix commutes with it. -/
theorem enum_take_comm {α : Type} (l : List α) (k : Nat) :
    l.enum.take k = (l.take k).enum := by
  simpa [List.enum] using enumFrom_take_comm l 0 k

/-- C1: the dense candidate set produced by the `vector_results` CTE is
exactly the first `top_k` rows of an ascending-distance ordering of the
whole collection (a permutation of the rows, sorted by
`vector <=> :vector`, whose selected rows are all at distance at most that
of every unselected row), and each candidate's rank is its 1-based position
in that order. -/
theorem dense_ranking (dist : List ℚ → ℚ) (rows : List VRow) (top_k : Nat) :
    (vector_results dist rows top_k).length = min top_k rows.length
    ∧ (∀ i p, (vector_results dist rows top_k)[i]? = some p → p.2 = i + 1)
    ∧ ∃ sorted : List VRow,
        sorted.Perm rows
        ∧ List.Sorted (fun a b => dist a.vector ≤ dist b.vector) sorted
        ∧ vector_results dist rows top_k
            = (sorted.take top_k).enum.map (fun q => (q.2.id, q.1 + 1))
        ∧ ∀ x ∈ sorted.take top_k, ∀ y ∈ sorted.drop top_k,
            dist x.vector ≤ dist y.vector := by
  haveI : IsTotal VRow (fun a b => dist a.vector ≤ dist b.vector) :=
    ⟨fun _ _ => le_total _ _⟩
  haveI : IsTrans VRow (fun a b => dist a.vector ≤ dist b.vector) :=
    ⟨fun _ _ _ hab hbc => le_trans hab hbc⟩
  have hperm := List.perm_insertionSort
    (fun a b => dist a.vector ≤ dist b.vector) rows
  have hsorted := List.sorted_insertionSort
    (fun a b => dist a.vector ≤ dist b.vector) rows
  refine ⟨?_, ?_, rows.insertionSort (fun a b => dist a.vector ≤ dist b.vector),
    hperm, hsorted, ?_, ?_⟩
  · unfold vector_results
    simp [List.length_take, hperm.length_eq]
  · intro i p hp
    unfold vector_results at hp
    rw [List.getElem?_take] at hp
    by_cases hik : i < top_k
    · rw [if_pos hik] at hp
      rw [List.getElem?_map] at hp
      rw [List.getElem?_enum] at hp
      cases hx : (rows.insertionSort
          (fun a b => dist a.vector ≤ dist b.vector))[i]? with
      | none => rw [hx] at hp; cases hp
      | some x =>
        rw [hx] at hp
        have hps : some ((x.id, i + 1) : Nat × Nat) = some p := by
          simpa using hp
        cases hps
        rfl
    · rw [if_neg hik] at hp
      cases hp
  · unfold vector_results
    rw [← List.map_take, enum_take_comm]
  · intro x hx y hy
    exact hsorted.rel_of_mem_take_of_mem_drop hx hy

/-- Witness for C1 at a concrete two-row collection with distances 0 and 1:
the first dense candidate is row id 1 with rank 1, and the candidate count
is `min top_k (number of rows)`. -/
theorem dense_ranking_witness :
    (vector_results (fun v => v.headD 0)
        [⟨1, "a", [0], "ta"⟩, ⟨2, "b", [1], "tb"⟩] 2)[0]? = some (1, 1)
    ∧ ((1, 1) : Nat × Nat).2 = 0 + 1
    ∧ (vector_results (fun v => v.headD 0)
        [⟨1, "a", [0], "ta"⟩, ⟨2, "b", [1], "tb"⟩] 2).length
      = min 2 ([⟨1, "a", [0], "ta"⟩, ⟨2, "b", [1], "tb"⟩] : List VRow).length :=
  ⟨by decide,
    (dense_ranking (fun v => v.headD 0)
      [⟨1, "a", [0], "ta"⟩, ⟨2, "b", [1], "tb"⟩] 2).2.1 0 (1, 1) (by decide),
    (dense_ranking (fun v => v.headD 0)
      [⟨1, "a", [0], "ta"⟩, ⟨2, "b", [1], "tb"⟩] 2).1⟩

/-- C2: with `rrf_k > 0`, a candidate ranked strictly better (smaller) in
both the dense and the lexical ranking than another candidate of the same
hybrid search gets a strictly greater fused RRF score (an absent modality
contributes 0 to `rrf_score`), and the rows `search_by_vector` returns are
sorted by fused score descending. -/
theorem rrf_fusion_monotone (dist : List ℚ → ℚ) (kwMatch : String → Bool)
    (kwRank : String → ℚ) (rows : List VRow) (top_k : Nat) (rrf_k : ℚ)
    (hk : 0 < rrf_k) :
    (∀ id1 rv1 rk1 id2 rv2 rk2,
      (id1, some rv1, some rk1) ∈ full_outer (vector_results dist rows top_k)
          (keyword_results kwMatch kwRank rows top_k) →
      (id2, some rv2, some rk2) ∈ full_outer (vector_results dist rows top_k)
          (keyword_results kwMatch kwRank rows top_k) →
      rv1 < rv2 → rk1 < rk2 →
      rrf_score rrf_k (some rv2) (some rk2)
        < rrf_score rrf_k (some rv1) (some rk1))
    ∧ (∀ l, search_by_vector dist kwMatch kwRank (some rows) top_k rrf_k
          = some l → l.Pairwise (fun a b => b.2 ≤ a.2)) := by
  constructor
  · intro id1 rv1 rk1 id2 rv2 rk2 _ _ hv12 hk12
    unfold rrf_score
    have h1 : 0 < rrf_k + (rv1 : ℚ) :=
      add_pos_of_pos_of_nonneg hk (Nat.cast_nonneg rv1)
    have h2 : 0 < rrf_k + (rk1 : ℚ) :=
      add_pos_of_pos_of_nonneg hk (Nat.cast_nonneg rk1)
    have hlt1 : rrf_k + (rv1 : ℚ) < rrf_k + (rv2 : ℚ) := by
      have := (Nat.cast_lt (α := ℚ)).mpr hv12
      linarith
    have hlt2 : rrf_k + (rk1 : ℚ) < rrf_k + (rk2 : ℚ) := by
      have := (Nat.cast_lt (α := ℚ)).mpr hk12
      linarith
    exact add_lt_add (one_div_lt_one_div_of_lt h1 hlt1)
      (one_div_lt_one_div_of_lt h2 hlt2)
  · intro l hl
    haveI : IsTotal (Nat × ℚ) (fun a b => b.2 ≤ a.2) :=
      ⟨fun a b => le_total b.2 a.2⟩
    haveI : IsTrans (Nat × ℚ) (fun a b => b.2 ≤ a.2) :=
      ⟨fun _ _ _ h1 h2 => le_trans h2 h1⟩
    simp only [search_by_vector] at hl
    obtain rfl := (Option.some.inj hl).symm
    rw [List.pairwise_map]
    exact List.Pairwise.sublist (List.take_sublist _ _)
      (List.sorted_insertionSort _ _)

/-- Witness for C2 at a concrete two-row collection where row 1 is ranked 1
in both modalities and row 2 is ranked 2 in both: row 1's fused score is
strictly higher, and the returned list is sorted by score descending. -/
theorem rrf_fusion_monotone_witness :
    rrf_score 60 (some 2) (some 2) < rrf_score 60 (some 1) (some 1)
    ∧ ([(("t1" : String), (2/61 : ℚ)), ("t2", 1/31)]).Pairwise
        (fun a b => b.2 ≤ a.2) :=
  ⟨(rrf_fusion_monotone (fun v => v.headD 0) (fun _ => true)
      (fun s => if s = "x" then 1 else 0)
      [⟨1, "t1", [0], "x"⟩, ⟨2, "t2", [1], "y"⟩] 2 60 (by norm_num)).1
      1 1 1 2 2 2 (by decide) (by decide) (by decide) (by decide),
   (rrf_fusion_monotone (fun v => v.headD 0) (fun _ => true)
      (fun s => if s = "x" then 1 else 0)
      [⟨1, "t1", [0], "x"⟩, ⟨2, "t2", [1], "y"⟩] 2 60 (by norm_num)).2
      [("t1", 2/61), ("t2", 1/31)]
      (by
        simp +decide [search_by_vector, vector_results, keyword_results,
          full_outer, rrf_score, joined_text, List.insertionSort,
          List.orderedInsert, List.enum, List.enumFrom, List.filter,
          List.lookup, List.find?]
        norm_num)⟩
